import Mathlib

/-!
# VideoNoteApp: a shallow embedding of `src/pages/videoNoteApp.js`

The React component keeps its state in `useState` cells and talks to the
browser through a handful of calls (speech recognition, speech synthesis,
`getUserMedia`, `fetch`, the canvas).  Here the cells, the two refs, the
part of the browser the handlers can observe, and a chronological log of
the external calls are the fields of one record `App`; every handler of the
component is a function `App → … → App`.  What the browser answers to an
asynchronous request (`getUserMedia`, `fetch`, `res.json()`) is an explicit
argument of the handler that awaits it.
-/

namespace VideoNoteApp

/-! ## Data model -/

/-- The two facing-mode strings the component ever stores in `currentDeviceId`
or passes as `facingMode`: `'environment'` and `'user'`. -/
inductive Facing
  | environment
  | user
deriving DecidableEq, Repr

/-- The other camera. -/
def Facing.opposite : Facing → Facing
  | .environment => .user
  | .user => .environment

/-- A track of a media stream, identified by the stream it belongs to and
its position in `getTracks()`. -/
structure MediaStreamTrack where
  stream : Nat
  index : Nat
deriving DecidableEq, Repr

/-- A `MediaStream` object handed out by `getUserMedia`. -/
structure MediaStream where
  id : Nat
  tracks : List MediaStreamTrack
deriving DecidableEq, Repr

/-- A binary blob, as produced by `canvas.toBlob`. -/
structure Blob where
  bytes : List Nat
  type : String
deriving DecidableEq, Repr

/-- One element of the array given to the `File` constructor, after the
conversion the constructor applies to it. -/
inductive BlobPart
  | blob (b : Blob)
  | text (s : String)
deriving DecidableEq, Repr

/-- A `File` object. -/
structure File where
  parts : List BlobPart
  name : String
  type : String
deriving DecidableEq, Repr

/-- A JSON value, as returned by `res.json()` or built by an object literal. -/
inductive Json
  | null
  | bool (b : Bool)
  | num (n : Int)
  | str (s : String)
  | arr (xs : List Json)
  | obj (fields : List (String × Json))

/-- Property access `value.key` on an object. -/
def Json.get? : Json → String → Option Json
  | .obj fields, key => fields.lookup key
  | _, _ => none

/-- A value appended to a `FormData`. -/
inductive FormValue
  | file (f : File)
  | text (s : String)
deriving DecidableEq, Repr

/-- The `<video>` element behind `videoRef`. -/
structure VideoElement where
  srcObject : Option MediaStream
  videoWidth : Nat
  videoHeight : Nat
deriving DecidableEq, Repr

/-- The hidden `<canvas>` element behind `canvasRef`. -/
structure CanvasElement where
  width : Nat
  height : Nat
deriving DecidableEq, Repr

/-- The calls the component makes on the browser and on the libraries it
imports, in the order it makes them. -/
inductive Call
  | startListening (continuous : Bool)
  | stopListening
  | resetTranscript
  | getUserMedia (facingMode : Facing) (audio : Bool)
  | trackStop (t : MediaStreamTrack)
  | speak (text : String)
  | cancel
  | preventDefault
  | fetch (url : String) (method : String) (body : List (String × FormValue))
  | getContext (kind : String)
  | drawImage (dx dy dw dh : Nat)
  | toBlob (type : String)
  | consoleError (label : String) (detail : String)
deriving DecidableEq, Repr

/-- The component with its surroundings. -/
structure App where
  /- `useState` cells -/
  isNoteTaking : Bool
  isPaused : Bool
  isMuted : Bool
  note : String
  isNotesExpanded : Bool
  error : Option String
  file : Option File
  response : Option Json
  isSpeaking : Bool
  videoStream : Option MediaStream
  currentDeviceId : Option Facing
  /- `useSpeechRecognition()` -/
  transcript : String
  browserSupportsSpeechRecognition : Bool
  /- `videoRef.current`, `canvasRef.current` -/
  video : Option VideoElement
  canvas : Option CanvasElement
  /- the browser: is `'speechSynthesis' in window`, the id the next stream
     handed out by `getUserMedia` gets, the tracks that have not been stopped -/
  speechSynthesis : Bool
  nextStream : Nat
  live : List MediaStreamTrack
  /- the external calls made so far, oldest first -/
  calls : List Call

/-- The component right after its first render: every `useState` cell holds
its initial value, both elements are mounted, no stream was ever handed out. -/
def App.initial (browserSupportsSpeechRecognition speechSynthesis : Bool) : App where
  isNoteTaking := false
  isPaused := false
  isMuted := false
  note := ""
  isNotesExpanded := false
  error := none
  file := none
  response := none
  isSpeaking := false
  videoStream := none
  currentDeviceId := none
  transcript := ""
  browserSupportsSpeechRecognition := browserSupportsSpeechRecognition
  video := some ⟨none, 0, 0⟩
  canvas := some ⟨300, 150⟩
  speechSynthesis := speechSynthesis
  nextStream := 0
  live := []
  calls := []

/-! ## The transcript effect (lines 48-53) -/

/-- The effect `useEffect(() => …, [transcript])`: a non-empty transcript is
appended to the note with a newline, and the transcript is reset. -/
def transcriptEffect (s : App) : App :=
  if s.transcript ≠ "" then
    { s with
      note := s.note ++ s.transcript ++ "\n"
      transcript := ""
      calls := s.calls ++ [.resetTranscript] }
  else s

/-- The recognition hook hands the fragment `f` to the component as the new
value of `transcript`; the effect runs on that change, and once more on the
change its own `resetTranscript()` causes. -/
def deliver (s : App) (f : String) : App :=
  transcriptEffect (transcriptEffect { s with transcript := f })

/-! ## Listening (lines 55-61) -/

/-- The helper `startListening`: `SpeechRecognition.startListening` with
`continuous: true`. -/
def startListening (s : App) : App :=
  { s with calls := s.calls ++ [.startListening true] }

/-- The helper `stopListening`: `SpeechRecognition.stopListening()`. -/
def stopListening (s : App) : App :=
  { s with calls := s.calls ++ [.stopListening] }

/-- Whether the recognition feed is on after a log of calls: the most recent
of the start and stop calls was a start (off before any of them). -/
def feedActive (calls : List Call) : Bool :=
  calls.foldl
    (fun active c =>
      match c with
      | .startListening _ => true
      | .stopListening => false
      | _ => active)
    false

/-! ## The camera (lines 63-93) -/

/-- What the browser answers to a `getUserMedia` request: a stream with so
many tracks, or a rejection with the message of its error. -/
inductive Acquisition
  | granted (tracks : Nat)
  | denied (message : String)
deriving DecidableEq, Repr

/-- The stream object the browser creates for a granted request: a fresh id,
and its tracks in `getTracks()` order. -/
def newStream (id tracks : Nat) : MediaStream :=
  ⟨id, (List.range tracks).map fun i => ⟨id, i⟩⟩

/-- The call `track.stop()`: the track is live no more. -/
def stopTrack (s : App) (t : MediaStreamTrack) : App :=
  { s with
    live := s.live.filter fun u => u ≠ t
    calls := s.calls ++ [.trackStop t] }

/-- The assignment `videoRef.current.srcObject = stream`, guarded by
`if (videoRef.current)`. -/
def setSrcObject (video : Option VideoElement) (stream : MediaStream) : Option VideoElement :=
  match video with
  | some v => some { v with srcObject := some stream }
  | none => none

/-- The handler `toggleCamera`: request the environment-facing camera; on
success store the stream, show it and record the facing mode, on failure
log the error and store its message. -/
def toggleCamera (s : App) (answer : Acquisition) : App :=
  let s : App := { s with calls := s.calls ++ [.getUserMedia .environment false] }
  match answer with
  | .granted n =>
    let stream := newStream s.nextStream n
    { s with
      nextStream := s.nextStream + 1
      live := s.live ++ stream.tracks
      videoStream := some stream
      video := setSrcObject s.video stream
      currentDeviceId := some .environment }
  | .denied message =>
    { s with
      calls := s.calls ++ [.consoleError "Error accessing the camera:" message]
      error := some message }

/-- The handler `flipCamera`: stop every track of the held stream, if one
is held, then request the camera of the other facing mode and go on as
`toggleCamera` does. -/
def flipCamera (s : App) (answer : Acquisition) : App :=
  let stopped : App :=
    match s.videoStream with
    | some videoStream => videoStream.tracks.foldl stopTrack s
    | none => s
  let newFacingMode : Facing :=
    if s.currentDeviceId = some .environment then .user else .environment
  let s : App := { stopped with calls := stopped.calls ++ [.getUserMedia newFacingMode false] }
  match answer with
  | .granted n =>
    let stream := newStream s.nextStream n
    { s with
      nextStream := s.nextStream + 1
      live := s.live ++ stream.tracks
      videoStream := some stream
      video := setSrcObject s.video stream
      currentDeviceId := some newFacingMode }
  | .denied message =>
    { s with
      calls := s.calls ++ [.consoleError "Error flipping camera:" message]
      error := some message }

/-- The mount effect (lines 41-46): report missing speech recognition, then
`toggleCamera()`. -/
def mountEffect (s : App) (answer : Acquisition) : App :=
  let s : App :=
    if !s.browserSupportsSpeechRecognition then
      { s with error := some "Browser doesn't support speech recognition." }
    else s
  toggleCamera s answer

/-! ## Speaking the note (lines 97-109) -/

/-- The handler `speakNote`. -/
def speakNote (s : App) : App :=
  if s.isSpeaking then
    { s with calls := s.calls ++ [.cancel], isSpeaking := false }
  else if s.speechSynthesis then
    { s with calls := s.calls ++ [.speak s.note], isSpeaking := true }
  else s

/-- The callback `utterance.onend`. -/
def utteranceEnd (s : App) : App :=
  { s with isSpeaking := false }

/-! ## Snapshots (lines 111-124) -/

/-- What `canvas.toBlob` hands to its callback (HTML standard): `null` when
the bitmap has no pixels, that is when its width or its height is zero, and
otherwise the result `encoded` of serialising the bitmap. -/
def canvasToBlob (c : CanvasElement) (encoded : Option Blob) : Option Blob :=
  if c.width = 0 ∨ c.height = 0 then none else encoded

/-- The conversion the `File` constructor applies to an element of its first
argument (Web IDL): a blob is taken as it is, and `null` becomes the string
`"null"`. -/
def blobPart : Option Blob → BlobPart
  | some b => .blob b
  | none => .text "null"

/-- The handler `takeSnapshot`, the `toBlob` callback included; `encoded` is
what the browser makes of a bitmap that has pixels. -/
def takeSnapshot (s : App) (encoded : Option Blob) : App :=
  match s.video, s.canvas with
  | some video, some canvas =>
    let canvas : CanvasElement := { canvas with width := video.videoWidth, height := video.videoHeight }
    let blob := canvasToBlob canvas encoded
    let file : File := ⟨[blobPart blob], "snapshot.jpg", "image/jpeg"⟩
    { s with
      canvas := some canvas
      calls := s.calls ++
        [.getContext "2d", .drawImage 0 0 canvas.width canvas.height, .toBlob "image/jpeg"]
      file := some file }
  | _, _ => s

/-! ## Submission (lines 126-145) -/

/-- What the network answers to the `fetch`: the promise rejects with an
error carrying `message`, or it resolves to a response with a status whose
`json()` either yields a value or throws an error carrying a message. -/
inductive FetchAnswer
  | rejected (message : String)
  | response (status : Nat) (json : Except String Json)

/-- The flag `res.ok` (Fetch standard): the status is in the range 200-299. -/
def okStatus (status : Nat) : Bool :=
  200 ≤ status && status ≤ 299

/-- The object literal of the `catch` block. -/
def errorObject (message : String) : Json :=
  .obj [("message", .str "Error processing request"), ("error", .str message)]

/-- The `catch` block of `handleSubmit`. -/
def submitFailed (s : App) (message : String) : App :=
  { s with
    calls := s.calls ++ [.consoleError "Error:" message]
    response := some (errorObject message) }

/-- The handler `handleSubmit`. -/
def handleSubmit (s : App) (answer : FetchAnswer) : App :=
  let s : App := { s with calls := s.calls ++ [.preventDefault] }
  match s.file with
  | none => s
  | some file =>
    let formData : List (String × FormValue) := [("file", .file file), ("note", .text s.note)]
    let s : App := { s with calls := s.calls ++ [.fetch "/api/summarize" "POST" formData] }
    match answer with
    | .rejected message => submitFailed s message
    | .response status json =>
      if !okStatus status then
        submitFailed s ("HTTP error! status: " ++ toString status)
      else
        match json with
        | .error message => submitFailed s message
        | .ok data => { s with response := some data }

/-! ## The session controls (lines 147-173) -/

/-- The handler `toggleNoteTaking`. -/
def toggleNoteTaking (s : App) : App :=
  let s' : App :=
    if !s.isNoteTaking then startListening s
    else { stopListening s with isPaused := false }
  { s' with isNoteTaking := !s.isNoteTaking }

/-- The handler `togglePause`. -/
def togglePause (s : App) : App :=
  let s' : App := { s with isPaused := !s.isPaused }
  if s.isPaused then startListening s' else stopListening s'

/-- The handler `toggleMute`. -/
def toggleMute (s : App) : App :=
  let s' : App := if s.isMuted then startListening s else stopListening s
  { s' with isMuted := !s.isMuted }

/-- The three session handlers, as things a caller can invoke. -/
inductive Control
  | toggleNoteTaking
  | togglePause
  | toggleMute
deriving DecidableEq, Repr

/-- One call of a session handler. -/
def perform (s : App) : Control → App
  | .toggleNoteTaking => toggleNoteTaking s
  | .togglePause => togglePause s
  | .toggleMute => toggleMute s

/-- Whether the rendered page (lines 205-233) offers a control in state `s`:
the note-taking button is always there, the pause button is rendered only
under `isNoteTaking &&`, and the mute button is commented out. -/
def offered (s : App) : Control → Bool
  | .toggleNoteTaking => true
  | .togglePause => s.isNoteTaking
  | .toggleMute => false

/-- Whether every control of a sequence is offered in the state in which it
is invoked. -/
def allOffered (s : App) : List Control → Bool
  | [] => true
  | c :: cs => offered s c && allOffered (perform s c) cs

/-- The session state the page reports. -/
inductive Session
  | Idle
  | Listening
  | Paused
deriving DecidableEq, Repr

/-- The session state read off `isNoteTaking` and `isPaused`. -/
def session (s : App) : Session :=
  if !s.isNoteTaking then .Idle
  else if s.isPaused then .Paused
  else .Listening

/-- The transitions start, pause, resume and stop. -/
def allowed : Session → Session → Bool
  | .Idle, .Listening => true
  | .Listening, .Paused => true
  | .Paused, .Listening => true
  | .Listening, .Idle => true
  | .Paused, .Idle => true
  | _, _ => false

/-! ## The note buffer -/

/-- The text a list of fragments commits: each fragment followed by one
newline, in order. -/
def committed (fragments : List String) : String :=
  String.join (fragments.map fun f => f ++ "\n")

/-- What holds of the session cells and the feed as long as only offered
controls are used: an idle session is not paused, the mute cell is never
set, and the feed is on exactly in a session that takes notes unpaused. -/
def sessionInv (s : App) : Prop :=
  (s.isNoteTaking = false → s.isPaused = false)
    ∧ s.isMuted = false
    ∧ feedActive s.calls = (s.isNoteTaking && !s.isPaused)

/-- Whether a call is a network request. -/
def Call.isFetch : Call → Bool
  | .fetch _ _ _ => true
  | _ => false

/-- Whether a call stops a track. -/
def Call.isTrackStop : Call → Bool
  | .trackStop _ => true
  | _ => false

/-- Whether a call asks for a camera stream. -/
def Call.isGetUserMedia : Call → Bool
  | .getUserMedia _ _ => true
  | _ => false

/-- What holds of the camera cells after the mount effect and any number of
`flipCamera` calls: every live track is a track of the held stream, the
tracks of the held stream carry its id, and a held stream comes with a
recorded facing mode. -/
def cameraInv (s : App) : Prop :=
  (∀ t ∈ s.live, ∃ held, s.videoStream = some held ∧ t ∈ held.tracks)
    ∧ (∀ held, s.videoStream = some held → ∀ t ∈ held.tracks, t.stream = held.id)
    ∧ (∀ held, s.videoStream = some held → s.currentDeviceId ≠ none)

/-- A state ready for submission: a snapshot file is stored and the note
reads "note text". -/
def readyToSubmit : App :=
  { App.initial true true with
    file := some ⟨[.blob ⟨[255, 216, 255], "image/jpeg"⟩], "snapshot.jpg", "image/jpeg"⟩
    note := "note text" }

/-! ## Theorems -/

theorem join_foldl (acc : String) (l : List String) :
    l.foldl (fun r x => r ++ x) acc = acc ++ String.join l := by
  induction l generalizing acc with
  | nil => simp [String.join]
  | cons x xs ih =>
    simp only [List.foldl_cons, String.join]
    rw [ih, ih ("" ++ x)]
    simp [String.append_assoc]

theorem committed_cons (f : String) (fs : List String) :
    committed (f :: fs) = f ++ "\n" ++ committed fs := by
  simp only [committed, List.map_cons, String.join, List.foldl_cons]
  rw [join_foldl]
  simp [String.join]

theorem deliver_note (s : App) (f : String) (hf : f ≠ "") :
    (deliver s f).note = s.note ++ f ++ "\n" := by
  simp [deliver, transcriptEffect, hf]

theorem foldl_deliver_note (fs : List String) (hfs : ∀ f ∈ fs, f ≠ "") (s : App) :
    (fs.foldl deliver s).note = s.note ++ committed fs := by
  induction fs generalizing s with
  | nil => simp [committed, String.join]
  | cons f fs ih =>
    have hf : f ≠ "" := hfs f (List.mem_cons_self f fs)
    have hrest : ∀ g ∈ fs, g ≠ "" := fun g hg => hfs g (List.mem_cons_of_mem f hg)
    rw [List.foldl_cons, ih hrest, deliver_note s f hf, committed_cons]
    simp [String.append_assoc]

/-- C1: from any note buffer, delivering non-empty finalized fragments one
at a time to the transcript effect leaves the buffer equal to the initial
text followed by every fragment in delivery order, each with exactly one
newline after it. -/
theorem transcript_fragments_appended_in_order (s : App) (fragments : List String)
    (hne : ∀ f ∈ fragments, f ≠ "") :
    (fragments.foldl deliver s).note
      = s.note ++ String.join (fragments.map fun f => f ++ "\n") :=
  foldl_deliver_note fragments hne s

/-- C1, at the fragments "hello " and "world" from the empty buffer. -/
theorem transcript_fragments_appended_in_order_witness :
    (∀ f ∈ ["hello ", "world"], f ≠ "")
      ∧ (["hello ", "world"].foldl deliver (App.initial true true)).note
          = (App.initial true true).note
              ++ String.join (["hello ", "world"].map fun f => f ++ "\n")
      ∧ (App.initial true true).note
              ++ String.join (["hello ", "world"].map fun f => f ++ "\n")
          = "hello \nworld\n" :=
  ⟨by decide,
   transcript_fragments_appended_in_order (App.initial true true) ["hello ", "world"] (by decide),
   by decide⟩

/-! ### The session controls -/

theorem feedActive_start (calls : List Call) (b : Bool) :
    feedActive (calls ++ [.startListening b]) = true := by
  simp [feedActive, List.foldl_append]

theorem feedActive_stop (calls : List Call) :
    feedActive (calls ++ [.stopListening]) = false := by
  simp [feedActive, List.foldl_append]

theorem allOffered_append (cs : List Control) (c : Control) (s : App) :
    allOffered s (cs ++ [c]) = (allOffered s cs && offered (cs.foldl perform s) c) := by
  induction cs generalizing s with
  | nil => simp [allOffered]
  | cons d ds ih => simp [allOffered, ih, Bool.and_assoc]

theorem sessionInv_initial (b1 b2 : Bool) : sessionInv (App.initial b1 b2) := by
  simp [sessionInv, App.initial, feedActive]

theorem sessionInv_perform (s : App) (c : Control) (hinv : sessionInv s)
    (hoff : offered s c = true) : sessionInv (perform s c) := by
  obtain ⟨hidle, hmute, hfeed⟩ := hinv
  cases c with
  | toggleNoteTaking =>
    cases hn : s.isNoteTaking <;>
      simp [sessionInv, perform, toggleNoteTaking, startListening, stopListening, hn, hmute,
        feedActive_start, feedActive_stop]
    exact hidle hn
  | togglePause =>
    have hn : s.isNoteTaking = true := by simpa [offered] using hoff
    cases hp : s.isPaused <;>
      simp [sessionInv, perform, togglePause, startListening, stopListening, hn, hp, hmute,
        feedActive_start, feedActive_stop]
  | toggleMute => simp [offered] at hoff

theorem sessionInv_run (cs : List Control) (s : App) (hinv : sessionInv s)
    (hoff : allOffered s cs = true) : sessionInv (cs.foldl perform s) := by
  induction cs generalizing s with
  | nil => simpa using hinv
  | cons c cs ih =>
    simp only [allOffered, Bool.and_eq_true] at hoff
    exact ih (perform s c) (sessionInv_perform s c hinv hoff.1) hoff.2

theorem allowed_perform (s : App) (c : Control) (hinv : sessionInv s)
    (hoff : offered s c = true) : allowed (session s) (session (perform s c)) = true := by
  obtain ⟨hidle, -, -⟩ := hinv
  cases c with
  | toggleNoteTaking =>
    cases hn : s.isNoteTaking
    · simp [perform, toggleNoteTaking, startListening, session, hn, hidle hn, allowed]
    · cases hp : s.isPaused <;>
        simp [perform, toggleNoteTaking, stopListening, session, hn, hp, allowed]
  | togglePause =>
    have hn : s.isNoteTaking = true := by simpa [offered] using hoff
    cases hp : s.isPaused <;>
      simp [perform, togglePause, startListening, stopListening, session, hn, hp, allowed]
  | toggleMute => simp [offered] at hoff

/-- C2, as the code has it: in every sequence of session controls from the
initial state in which each control is invoked only while the page offers
it (the pause button is rendered only while notes are taken), every step is
one of start, pause, resume and stop, so no step goes from Idle to Paused;
and `togglePause` from Paused lands in Listening in any state. -/
theorem offered_steps_are_session_transitions (b1 b2 : Bool) (cs : List Control) (c : Control)
    (hoff : allOffered (App.initial b1 b2) (cs ++ [c]) = true) :
    allowed (session (cs.foldl perform (App.initial b1 b2)))
        (session ((cs ++ [c]).foldl perform (App.initial b1 b2))) = true
      ∧ ¬ (session (cs.foldl perform (App.initial b1 b2)) = .Idle
            ∧ session ((cs ++ [c]).foldl perform (App.initial b1 b2)) = .Paused)
      ∧ ∀ s : App, session s = .Paused → session (togglePause s) = .Listening := by
  rw [allOffered_append, Bool.and_eq_true] at hoff
  have hinv := sessionInv_run cs _ (sessionInv_initial b1 b2) hoff.1
  have hstep := allowed_perform _ c hinv hoff.2
  rw [List.foldl_append, List.foldl_cons, List.foldl_nil]
  refine ⟨hstep, ?_, ?_⟩
  · rintro ⟨h1, h2⟩
    rw [h1, h2] at hstep
    simp [allowed] at hstep
  · intro s hs
    have hn : s.isNoteTaking = true := by
      cases hn : s.isNoteTaking
      · simp [session, hn] at hs
      · rfl
    have hp : s.isPaused = true := by
      cases hp : s.isPaused
      · simp [session, hn, hp] at hs
      · rfl
    simp [togglePause, startListening, session, hn, hp]

/-- C2, at start, pause, resume. -/
theorem offered_steps_are_session_transitions_witness :
    allOffered (App.initial true true)
        ([Control.toggleNoteTaking, Control.togglePause] ++ [Control.togglePause]) = true
      ∧ (allowed
            (session ([Control.toggleNoteTaking, Control.togglePause].foldl perform
              (App.initial true true)))
            (session
              (([Control.toggleNoteTaking, Control.togglePause] ++ [Control.togglePause]).foldl
                perform (App.initial true true))) = true
          ∧ ¬ (session ([Control.toggleNoteTaking, Control.togglePause].foldl perform
                  (App.initial true true)) = .Idle
                ∧ session
                    (([Control.toggleNoteTaking, Control.togglePause]
                        ++ [Control.togglePause]).foldl
                      perform (App.initial true true)) = .Paused)
          ∧ ∀ s : App, session s = .Paused → session (togglePause s) = .Listening) :=
  ⟨by decide,
   offered_steps_are_session_transitions true true
     [Control.toggleNoteTaking, Control.togglePause] Control.togglePause (by decide)⟩

/-- C2 as stated fails: `togglePause` called in the initial state is a step
from Idle to Idle, and the `toggleNoteTaking` after it goes from Idle
straight to Paused. -/
theorem unoffered_pause_reaches_paused_from_idle :
    session (App.initial true true) = .Idle
      ∧ session ([Control.togglePause].foldl perform (App.initial true true)) = .Idle
      ∧ session ([Control.togglePause, Control.toggleNoteTaking].foldl perform
          (App.initial true true)) = .Paused
      ∧ allowed .Idle .Idle = false
      ∧ allowed .Idle .Paused = false := by
  decide

/-- C7, as the code has it: after every sequence of session controls from
the initial state in which each control is invoked only while the page
offers it (the pause button only while notes are taken, the mute button not
at all), the feed is on if and only if notes are taken, unpaused and
unmuted; and `toggleMute`, in any state, leaves the feed on exactly when
the mute cell was set before the call, whatever the session state. -/
theorem feed_follows_session_when_offered (b1 b2 : Bool) (cs : List Control)
    (hoff : allOffered (App.initial b1 b2) cs = true) :
    (feedActive (cs.foldl perform (App.initial b1 b2)).calls = true
        ↔ (cs.foldl perform (App.initial b1 b2)).isNoteTaking = true
            ∧ (cs.foldl perform (App.initial b1 b2)).isPaused = false
            ∧ (cs.foldl perform (App.initial b1 b2)).isMuted = false)
      ∧ ∀ s : App, feedActive (toggleMute s).calls = s.isMuted := by
  obtain ⟨-, hmute, hfeed⟩ := sessionInv_run cs _ (sessionInv_initial b1 b2) hoff
  constructor
  · rw [hfeed, hmute]
    simp
  · intro s
    cases hm : s.isMuted <;>
      simp [toggleMute, startListening, stopListening, hm, feedActive_start, feedActive_stop]

/-- C7, at start, pause. -/
theorem feed_follows_session_when_offered_witness :
    allOffered (App.initial true true) [Control.toggleNoteTaking, Control.togglePause] = true
      ∧ ((feedActive ([Control.toggleNoteTaking, Control.togglePause].foldl perform
              (App.initial true true)).calls = true
            ↔ ([Control.toggleNoteTaking, Control.togglePause].foldl perform
                  (App.initial true true)).isNoteTaking = true
                ∧ ([Control.toggleNoteTaking, Control.togglePause].foldl perform
                    (App.initial true true)).isPaused = false
                ∧ ([Control.toggleNoteTaking, Control.togglePause].foldl perform
                    (App.initial true true)).isMuted = false)
          ∧ ∀ s : App, feedActive (toggleMute s).calls = s.isMuted) :=
  ⟨by decide,
   feed_follows_session_when_offered true true
     [Control.toggleNoteTaking, Control.togglePause] (by decide)⟩

/-- C7 as stated fails: two `toggleMute` calls from the initial state leave
the feed on in an idle session (the second call restarts the feed although
the session was not Listening), and `toggleNoteTaking` after one
`toggleMute` leaves the feed on in a muted session. -/
theorem unmute_restarts_feed_when_idle :
    feedActive ([Control.toggleMute, Control.toggleMute].foldl perform
        (App.initial true true)).calls = true
      ∧ ([Control.toggleMute, Control.toggleMute].foldl perform
          (App.initial true true)).isNoteTaking = false
      ∧ session ([Control.toggleMute].foldl perform (App.initial true true)) = .Idle
      ∧ feedActive ([Control.toggleMute, Control.toggleNoteTaking].foldl perform
          (App.initial true true)).calls = true
      ∧ ([Control.toggleMute, Control.toggleNoteTaking].foldl perform
          (App.initial true true)).isMuted = true := by
  decide

/-! ### The camera -/

theorem foldl_stopTrack (ts : List MediaStreamTrack) (s : App) :
    ts.foldl stopTrack s =
      { s with
        live := s.live.filter fun u => decide (u ∉ ts)
        calls := s.calls ++ ts.map Call.trackStop } := by
  induction ts generalizing s with
  | nil => simp
  | cons t ts ih =>
    rw [List.foldl_cons, ih]
    simp [stopTrack, List.filter_filter, not_or, Bool.and_comm]

theorem newStream_tracks_stream (id n : Nat) :
    ∀ t ∈ (newStream id n).tracks, t.stream = (newStream id n).id := by
  intro t ht
  simp only [newStream, List.mem_map] at ht
  obtain ⟨i, -, rfl⟩ := ht
  rfl

/-- C5: in a state that holds a stream, one `flipCamera` call logs a stop for
every track of the held stream, in `getTracks()` order, then exactly one
`getUserMedia` request, and after it neither a stop nor a request; the
request asks for the facing mode opposite to the recorded one. -/
theorem flip_stops_held_tracks_before_request (s : App) (held : MediaStream)
    (answer : Acquisition) (hheld : s.videoStream = some held) :
    ∃ facing logged,
      (flipCamera s answer).calls
          = s.calls ++ held.tracks.map Call.trackStop ++ [.getUserMedia facing false] ++ logged
        ∧ (∀ c ∈ logged, c.isTrackStop = false ∧ c.isGetUserMedia = false)
        ∧ ∀ current, s.currentDeviceId = some current → facing = current.opposite := by
  refine ⟨if s.currentDeviceId = some .environment then .user else .environment, ?_⟩
  have hfacing : ∀ current, s.currentDeviceId = some current →
      (if s.currentDeviceId = some .environment then Facing.user else Facing.environment)
        = current.opposite := by
    intro current hc
    cases current <;> simp [hc, Facing.opposite]
  cases answer with
  | granted n =>
    refine ⟨[], ?_, by simp, hfacing⟩
    simp [flipCamera, hheld, foldl_stopTrack]
  | denied message =>
    refine ⟨[.consoleError "Error flipping camera:" message], ?_, ?_, hfacing⟩
    · simp [flipCamera, hheld, foldl_stopTrack]
    · simp [Call.isTrackStop, Call.isGetUserMedia]

/-- C5, at a state holding a two-track environment stream. -/
theorem flip_stops_held_tracks_before_request_witness :
    (mountEffect (App.initial true true) (.granted 2)).videoStream = some (newStream 0 2)
      ∧ ∃ facing logged,
          (flipCamera (mountEffect (App.initial true true) (.granted 2)) (.granted 1)).calls
              = (mountEffect (App.initial true true) (.granted 2)).calls
                  ++ (newStream 0 2).tracks.map Call.trackStop
                  ++ [.getUserMedia facing false] ++ logged
            ∧ (∀ c ∈ logged, c.isTrackStop = false ∧ c.isGetUserMedia = false)
            ∧ ∀ current,
                (mountEffect (App.initial true true) (.granted 2)).currentDeviceId = some current →
                  facing = current.opposite :=
  ⟨by decide,
   flip_stops_held_tracks_before_request (mountEffect (App.initial true true) (.granted 2))
     (newStream 0 2) (.granted 1) (by decide)⟩

theorem cameraInv_mount (b1 b2 : Bool) (first : Acquisition) :
    cameraInv (mountEffect (App.initial b1 b2) first) := by
  cases first with
  | granted n =>
    cases b1 <;>
      simp [cameraInv, mountEffect, toggleCamera, App.initial] <;>
      exact newStream_tracks_stream 0 n
  | denied message =>
    cases b1 <;> simp [cameraInv, mountEffect, toggleCamera, App.initial]

theorem stopped_live_nil (s : App) (hinv : cameraInv s) :
    (match s.videoStream with
      | some videoStream => videoStream.tracks.foldl stopTrack s
      | none => s).live = [] := by
  obtain ⟨hlive, -, -⟩ := hinv
  cases hv : s.videoStream with
  | none =>
    simp only
    apply List.eq_nil_iff_forall_not_mem.mpr
    intro t ht
    obtain ⟨held, hheld, -⟩ := hlive t ht
    simp [hv] at hheld
  | some held =>
    simp only [foldl_stopTrack]
    apply List.eq_nil_iff_forall_not_mem.mpr
    intro t ht
    simp only [List.mem_filter, decide_eq_true_eq] at ht
    obtain ⟨held2, hheld, hmem⟩ := hlive t ht.1
    rw [hv] at hheld
    cases hheld
    exact ht.2 hmem

theorem flipCamera_denied_live (s : App) (hinv : cameraInv s) (message : String) :
    (flipCamera s (.denied message)).live = [] := by
  have h := stopped_live_nil s hinv
  simpa [flipCamera] using h

theorem cameraInv_flip (s : App) (hinv : cameraInv s) (answer : Acquisition) :
    cameraInv (flipCamera s answer) := by
  have hnil := stopped_live_nil s hinv
  obtain ⟨-, hids, hfacing⟩ := hinv
  cases answer with
  | denied message =>
    have hl : (flipCamera s (.denied message)).live = [] := by simpa [flipCamera] using hnil
    have hv : (flipCamera s (.denied message)).videoStream = s.videoStream := by
      cases hs : s.videoStream <;> simp [flipCamera, hs, foldl_stopTrack]
    have hc : (flipCamera s (.denied message)).currentDeviceId = s.currentDeviceId := by
      cases hs : s.videoStream <;> simp [flipCamera, hs, foldl_stopTrack]
    refine ⟨?_, ?_, ?_⟩
    · intro t ht
      simp [hl] at ht
    · intro held hheld
      exact hids held (hv ▸ hheld)
    · intro held hheld
      rw [hc]
      exact hfacing held (hv ▸ hheld)
  | granted n =>
    refine ⟨?_, ?_, ?_⟩
    · intro t ht
      simp only [flipCamera, hnil, List.nil_append] at ht
      exact ⟨_, rfl, ht⟩
    · intro held hheld
      simp only [flipCamera, Option.some.injEq] at hheld
      subst hheld
      exact newStream_tracks_stream _ _
    · intro held _
      simp [flipCamera]

theorem cameraInv_flips (answers : List Acquisition) (s : App) (hinv : cameraInv s) :
    cameraInv (answers.foldl flipCamera s) := by
  induction answers generalizing s with
  | nil => simpa using hinv
  | cons a rest ih => exact ih (flipCamera s a) (cameraInv_flip s hinv a)

/-- C6: after the mount effect's `toggleCamera` and any number of
`flipCamera` calls, each answered by a grant or a denial and each completed
before the next, all unstopped tracks belong to one stream, so at most one
acquired stream has unstopped tracks; and a further `flipCamera` that is
denied leaves no unstopped track at all. -/
theorem at_most_one_stream_live (b1 b2 : Bool) (first : Acquisition)
    (answers : List Acquisition) :
    (∀ t ∈ (answers.foldl flipCamera (mountEffect (App.initial b1 b2) first)).live,
      ∀ u ∈ (answers.foldl flipCamera (mountEffect (App.initial b1 b2) first)).live,
        t.stream = u.stream)
      ∧ ∀ message,
          (flipCamera (answers.foldl flipCamera (mountEffect (App.initial b1 b2) first))
            (.denied message)).live = [] := by
  have hinv := cameraInv_flips answers _ (cameraInv_mount b1 b2 first)
  refine ⟨?_, fun message => flipCamera_denied_live _ hinv message⟩
  intro t ht u hu
  obtain ⟨hlive, hids, -⟩ := hinv
  obtain ⟨held, hheld, hmem⟩ := hlive t ht
  obtain ⟨held2, hheld2, hmem2⟩ := hlive u hu
  rw [hheld] at hheld2
  cases hheld2
  rw [hids held hheld t hmem, hids held hheld u hmem2]

/-- C10, as the code has it: a granted acquisition, by `toggleCamera` or by
`flipCamera`, leaves the error cell as it was (nothing ever clears it); a
denied acquisition stores the denial's message in the error cell, and in
`toggleCamera` leaves the held stream, its live tracks and the recorded
facing mode unchanged. -/
theorem acquisition_keeps_or_sets_error (s : App) :
    (∀ n, (toggleCamera s (.granted n)).error = s.error
        ∧ (flipCamera s (.granted n)).error = s.error)
      ∧ ∀ message,
          (toggleCamera s (.denied message)).error = some message
            ∧ (flipCamera s (.denied message)).error = some message
            ∧ (toggleCamera s (.denied message)).videoStream = s.videoStream
            ∧ (toggleCamera s (.denied message)).live = s.live
            ∧ (toggleCamera s (.denied message)).currentDeviceId = s.currentDeviceId := by
  refine ⟨fun n => ⟨by simp [toggleCamera], ?_⟩, fun message => ?_⟩
  · cases hs : s.videoStream <;> simp [flipCamera, hs, foldl_stopTrack]
  · simp [toggleCamera, flipCamera]

/-- C10 as stated fails: after the mount effect's acquisition is denied with
"Permission denied", a granted `flipCamera` (or `toggleCamera`) stores the
new stream and the error cell still reads "Permission denied". -/
theorem error_survives_granted_acquisition :
    (mountEffect (App.initial true true) (.denied "Permission denied")).error
        = some "Permission denied"
      ∧ (flipCamera (mountEffect (App.initial true true) (.denied "Permission denied"))
          (.granted 1)).videoStream = some (newStream 0 1)
      ∧ (flipCamera (mountEffect (App.initial true true) (.denied "Permission denied"))
          (.granted 1)).error = some "Permission denied"
      ∧ (toggleCamera (mountEffect (App.initial true true) (.denied "Permission denied"))
          (.granted 1)).error = some "Permission denied" := by
  decide

/-! ### Speaking -/

/-- C8: when speech synthesis is available and the app is not speaking, two
`speakNote` calls with no completion event between them end not speaking,
and log exactly one `speak` of the note followed by one `cancel`. -/
theorem speak_twice_speaks_then_cancels (s : App) (hquiet : s.isSpeaking = false)
    (havail : s.speechSynthesis = true) :
    (speakNote (speakNote s)).isSpeaking = false
      ∧ (speakNote (speakNote s)).calls = s.calls ++ [.speak s.note, .cancel] := by
  simp [speakNote, hquiet, havail]

/-- C8, at the initial state with the note "hello". -/
theorem speak_twice_speaks_then_cancels_witness :
    ({ App.initial true true with note := "hello" } : App).isSpeaking = false
      ∧ ({ App.initial true true with note := "hello" } : App).speechSynthesis = true
      ∧ (speakNote (speakNote { App.initial true true with note := "hello" })).isSpeaking = false
      ∧ (speakNote (speakNote { App.initial true true with note := "hello" })).calls
          = ({ App.initial true true with note := "hello" } : App).calls
              ++ [.speak ({ App.initial true true with note := "hello" } : App).note, .cancel] :=
  ⟨rfl, rfl,
   speak_twice_speaks_then_cancels { App.initial true true with note := "hello" } rfl rfl⟩

/-! ### Snapshots -/

/-- C9 fails on the code: in the initial state, where no stream was acquired
and the video element has no frame dimensions, `takeSnapshot` sizes the
canvas to 0 by 0, the `toBlob` callback receives `null`, and the handler
stores a file made of the text "null" where no file was stored before; the
live tracks are left as they were. -/
theorem snapshot_without_frames_stores_null_file :
    (App.initial true true).videoStream = none
      ∧ (App.initial true true).video = some ⟨none, 0, 0⟩
      ∧ (App.initial true true).file = none
      ∧ (takeSnapshot (App.initial true true) (some ⟨[255, 216, 255], "image/jpeg"⟩)).file
          = some ⟨[.text "null"], "snapshot.jpg", "image/jpeg"⟩
      ∧ (takeSnapshot (App.initial true true) (some ⟨[255, 216, 255], "image/jpeg"⟩)).canvas
          = some ⟨0, 0⟩
      ∧ (takeSnapshot (App.initial true true) (some ⟨[255, 216, 255], "image/jpeg"⟩)).live
          = (App.initial true true).live := by
  decide

/-! ### Submission -/

theorem http_error_ne_empty (status : Nat) : "HTTP error! status: " ++ toString status ≠ "" := by
  intro h
  have hlen := congrArg String.length h
  simp [String.length_append] at hlen
  have : ("HTTP error! status: ").length = 20 := by decide
  omega

/-- C4: with no snapshot file, `handleSubmit` only calls `preventDefault`: it
issues no network request, and the stored response, the note and the file
stay as they were. -/
theorem submit_without_file_is_inert (s : App) (answer : FetchAnswer) (hfile : s.file = none) :
    (handleSubmit s answer).calls = s.calls ++ [.preventDefault]
      ∧ (∀ c ∈ (handleSubmit s answer).calls, c.isFetch = true → c ∈ s.calls)
      ∧ (handleSubmit s answer).response = s.response
      ∧ (handleSubmit s answer).note = s.note
      ∧ (handleSubmit s answer).file = s.file := by
  have h : handleSubmit s answer = { s with calls := s.calls ++ [.preventDefault] } := by
    simp [handleSubmit, hfile]
  rw [h]
  refine ⟨rfl, ?_, rfl, rfl, rfl⟩
  intro c hc hfetch
  simp only [List.mem_append, List.mem_singleton] at hc
  rcases hc with hc | hc
  · exact hc
  · subst hc
    simp [Call.isFetch] at hfetch

/-- C4, at the initial state and a service that would answer 200. -/
theorem submit_without_file_is_inert_witness :
    (App.initial true true).file = none
      ∧ (handleSubmit (App.initial true true) (.response 200 (.ok .null))).calls
          = (App.initial true true).calls ++ [.preventDefault]
      ∧ (∀ c ∈ (handleSubmit (App.initial true true) (.response 200 (.ok .null))).calls,
          c.isFetch = true → c ∈ (App.initial true true).calls)
      ∧ (handleSubmit (App.initial true true) (.response 200 (.ok .null))).response
          = (App.initial true true).response
      ∧ (handleSubmit (App.initial true true) (.response 200 (.ok .null))).note
          = (App.initial true true).note
      ∧ (handleSubmit (App.initial true true) (.response 200 (.ok .null))).file
          = (App.initial true true).file :=
  ⟨rfl, submit_without_file_is_inert (App.initial true true) (.response 200 (.ok .null)) rfl⟩

/-- C3, as the code has it: with a snapshot file present, `handleSubmit`
issues exactly one POST to /api/summarize carrying the file and the note,
and nothing it logs afterwards is a request; it stores the parsed body when
the status is 2xx and the body parses, and otherwise the error object whose
`error` is the message of the error caught: "HTTP error! status: N", never
empty, for a status N outside 2xx, the parse error's message for a 2xx
body that does not parse, the transport error's message for a rejected
request. -/
theorem submit_posts_once_and_stores_outcome (s : App) (file : File) (answer : FetchAnswer)
    (hfile : s.file = some file) :
    (∃ logged,
        (handleSubmit s answer).calls
            = s.calls
                ++ [.preventDefault,
                    .fetch "/api/summarize" "POST" [("file", .file file), ("note", .text s.note)]]
                ++ logged
          ∧ ∀ c ∈ logged, c.isFetch = false)
      ∧ (∀ status data, answer = .response status (.ok data) → okStatus status = true →
          (handleSubmit s answer).response = some data)
      ∧ (∀ status json, answer = .response status json → okStatus status = false →
          (handleSubmit s answer).response
              = some (errorObject ("HTTP error! status: " ++ toString status))
            ∧ "HTTP error! status: " ++ toString status ≠ "")
      ∧ (∀ status message, answer = .response status (.error message) → okStatus status = true →
          (handleSubmit s answer).response = some (errorObject message))
      ∧ (∀ message, answer = .rejected message →
          (handleSubmit s answer).response = some (errorObject message)) := by
  refine ⟨?_, ?_, ?_, ?_, ?_⟩
  · cases answer with
    | rejected message =>
      exact ⟨[.consoleError "Error:" message], by simp [handleSubmit, hfile, submitFailed],
        by simp [Call.isFetch]⟩
    | response status json =>
      cases hok : okStatus status
      · exact ⟨[.consoleError "Error:" ("HTTP error! status: " ++ toString status)],
          by simp [handleSubmit, hfile, submitFailed, hok], by simp [Call.isFetch]⟩
      · cases json with
        | error message =>
          exact ⟨[.consoleError "Error:" message],
            by simp [handleSubmit, hfile, submitFailed, hok], by simp [Call.isFetch]⟩
        | ok data =>
          exact ⟨[], by simp [handleSubmit, hfile, hok], by simp⟩
  · rintro status data rfl hok
    simp [handleSubmit, hfile, hok]
  · rintro status json rfl hok
    exact ⟨by simp [handleSubmit, hfile, hok, submitFailed], http_error_ne_empty status⟩
  · rintro status message rfl hok
    simp [handleSubmit, hfile, hok, submitFailed]
  · rintro message rfl
    simp [handleSubmit, hfile, submitFailed]

/-- C3, at the note "note text": a 200 reply whose body is the object with
message "summary" stores that object, and a 500 reply stores the error
object with the text "HTTP error! status: 500". -/
theorem submit_posts_once_and_stores_outcome_witness :
    readyToSubmit.file
        = some ⟨[.blob ⟨[255, 216, 255], "image/jpeg"⟩], "snapshot.jpg", "image/jpeg"⟩
      ∧ okStatus 200 = true
      ∧ (handleSubmit readyToSubmit
            (.response 200 (.ok (.obj [("message", .str "summary")])))).response
          = some (.obj [("message", .str "summary")])
      ∧ okStatus 500 = false
      ∧ (handleSubmit readyToSubmit (.response 500 (.error "no body"))).response
          = some (errorObject ("HTTP error! status: " ++ toString 500))
      ∧ "HTTP error! status: " ++ toString 500 = "HTTP error! status: 500" :=
  ⟨rfl, by decide,
   (submit_posts_once_and_stores_outcome readyToSubmit _ _ rfl).2.1 200 _ rfl (by decide),
   by decide,
   ((submit_posts_once_and_stores_outcome readyToSubmit _ _ rfl).2.2.1 500 _ rfl (by decide)).1,
   by decide⟩

/-- C3 as stated fails: a 200 reply whose body does not parse as JSON stores
the error object, not a parsed body; and a request rejected with an error
whose message is empty stores the error object with an empty error text. -/
theorem ok_reply_with_unparsable_body_stores_error :
    okStatus 200 = true
      ∧ (handleSubmit readyToSubmit
            (.response 200 (.error "Unexpected token < in JSON at position 0"))).response
          = some (errorObject "Unexpected token < in JSON at position 0")
      ∧ (errorObject "Unexpected token < in JSON at position 0").get? "message"
          = some (.str "Error processing request")
      ∧ (handleSubmit readyToSubmit (.rejected "")).response = some (errorObject "")
      ∧ (errorObject "").get? "error" = some (.str "") :=
  ⟨by decide, rfl, rfl, rfl, rfl⟩

end VideoNoteApp
